import Mathlib

/-!
Verification of the attack-detection and timed pirate-defense engine of the
ikabot fork: shallow embedding of
`src/ikabot/function/alertAttacks.py` (poll loop, deduplication, classifier),
`src/ikabot/function/emergencyDefense.py` (manual scanner) and
`src/ikabot/helpers/pirateDefense.py` (defense planner and executor glue).

Conventions of the embedding:
* Python ints that are non-negative by construction (parsed with `\d+`, or
  read with `min=0`) become `Nat`; quantities that can be negative
  (`timeLeft = eventTime - timeNow`, `available_time`, `time_buffer`)
  become `Int`.
* The transport layer (HTTP fetch/submit) is abstracted: fetch outcomes are
  `Option`/`Bool` parameters, the executor outcome (`convert_crew_for_defense`)
  is a `Bool` parameter.
* A Python exception that is caught by the enclosing `try` and turned into a
  failure result (e.g. `ZeroDivisionError` when `time_per_crew` or
  `points_per_crew` is `0`) is modelled as an explicit failure constructor.
* Python's `int(a / b)` on non-negative ints is modelled as exact integer
  floor division.
-/

namespace Ikabot

/-- One entry of `militaryMovement["event"]` as consumed by the engine:
`event["id"]`, `event.get("type")` and `event.get("missionIconClass")`.
`.get` on a possibly-missing key is modelled with `Option`. -/
structure MovementEvent where
  id : Nat
  type : Option String
  missionIconClass : Option String
  deriving DecidableEq, Repr

/-- One military movement of a snapshot, restricted to the fields the
detection loop and the manual scanner consume. -/
structure MilitaryMovement where
  event : MovementEvent
  isHostile : Bool
  isOwnArmyOrFleet : Bool
  deriving DecidableEq, Repr

/-- Classifier predicate from `alertAttacks.py` lines 324-327 (identical in
`emergencyDefense.py` lines 143-146):
`event.get("type") == "piracy" and event.get("missionIconClass") == "piracyRaid"`. -/
def isPirate (m : MilitaryMovement) : Bool :=
  m.event.type == some "piracy" && m.event.missionIconClass == some "piracyRaid"

/-- The three-way outcome of the threat classification. -/
inductive Classification
  | pirateRaid
  | playerAttack
  | notHostile
  deriving DecidableEq, Repr

/-- The classification a movement receives in the alert loop: hostile
movements are split by `isPirate` into the pirate branch (line 330) and the
player-attack branch (line 353); non-hostile movements are filtered out
before classification (lines 291-293). -/
def classifyMovement (m : MilitaryMovement) : Classification :=
  if isPirate m then Classification.pirateRaid
  else if m.isHostile then Classification.playerAttack
  else Classification.notHostile

/-- Filter of the manual defense scanner, `emergencyDefense.py` lines 140-147:
a movement is listed iff `isHostile and not isOwnArmyOrFleet` and the pirate
predicate holds. -/
def manual_scanner_selects (m : MilitaryMovement) : Bool :=
  m.isHostile && !m.isOwnArmyOrFleet && isPirate m

/-- Return value of `get_conversion_data` (`pirateDefense.py` lines 135-141).
All four numeric fields are parsed with `\d+` (hence non-negative). -/
structure ConversionData where
  capture_points : Nat
  base_time_seconds : Nat
  time_per_crew : Nat
  points_per_crew : Nat
  conversion_in_progress : Bool
  deriving DecidableEq, Repr

/-- `calculate_max_crew_conversion` (`pirateDefense.py` lines 149-183).
Returns `none` for the `ZeroDivisionError` raised by
`int(time_for_crew / time_per_crew)` when `time_per_crew = 0` (caught by the
caller's `try`); otherwise `some` of the computed crew count.  The early
return `0` when `available_time < base_time` happens before the division.
`max(0, max_crew)` is the identity here since the dividend is non-negative. -/
def calculate_max_crew_conversion (attack_arrival_seconds : Int)
    (safety_buffer_seconds : Nat) (conversion_data : ConversionData) :
    Option Nat :=
  let available_time : Int := attack_arrival_seconds - safety_buffer_seconds
  let base_time := conversion_data.base_time_seconds
  let time_per_crew := conversion_data.time_per_crew
  if available_time < base_time then some 0
  else if time_per_crew = 0 then none
  else
    let time_for_crew := (available_time - base_time).toNat
    some (time_for_crew / time_per_crew)

/-- The failure reasons produced by `auto_defend_pirate_attack`
(`pirateDefense.py` lines 262-353), one constructor per `result["reason"]`
string, plus `exceptionRaised` for an uncaught arithmetic error reaching the
enclosing `except` (line 350). -/
inductive FailReason
  | noFortressFound
  | fetchFailed
  | conversionAlreadyRunning
  | insufficientResource
  | attackTooClose
  | noViableConversion
  | deadlineMissed
  | executorFailed
  | exceptionRaised
  deriving DecidableEq, Repr

/-- The result dict of `auto_defend_pirate_attack` (lines 262-270):
on failure every numeric field keeps its initial `0` except
`attack_arrival_time`. -/
structure DefenseResult where
  success : Bool
  reason : Option FailReason
  crew_converted : Nat
  capture_points_spent : Nat
  conversion_time : Nat
  attack_arrival_time : Int
  time_buffer : Int
  deriving DecidableEq, Repr

/-- A failure result: the initial `result` dict (lines 262-270) with only
`reason` updated before the early return. -/
def failResult (attack_arrival_seconds : Int) (r : FailReason) : DefenseResult :=
  { success := false
    reason := some r
    crew_converted := 0
    capture_points_spent := 0
    conversion_time := 0
    attack_arrival_time := attack_arrival_seconds
    time_buffer := 0 }

/-- Steps 6-7b of `auto_defend_pirate_attack` (lines 307-322): combine the
time bound with the resource bound, the optional operator cap and the
7000-point bonus-preservation cap.  `if max_capture_points:` is Python
truthiness, so a cap of `0` behaves like no cap.  Precondition of the caller:
`points_per_crew ≠ 0` (otherwise the divisions raise before this point). -/
def crew_to_convert (conversion_data : ConversionData) (max_crew_by_time : Nat)
    (max_capture_points : Option Nat) (allow_bonus_loss : Bool) : Nat :=
  let max_crew_by_points := conversion_data.capture_points / conversion_data.points_per_crew
  let base := match max_capture_points with
    | some m =>
        if m = 0 then min max_crew_by_time max_crew_by_points
        else min (min max_crew_by_time max_crew_by_points)
            (m / conversion_data.points_per_crew)
    | none => min max_crew_by_time max_crew_by_points
  if allow_bonus_loss = false ∧ 7000 ≤ conversion_data.capture_points then
    min base ((conversion_data.capture_points - 7000) / conversion_data.points_per_crew)
  else base

/-- `auto_defend_pirate_attack` (`pirateDefense.py` lines 228-353).
The two transport steps are abstracted: `fortress_found` stands for
`get_pirate_fortress_city` returning a city, `fetched` for the result of
`get_conversion_data`, and `convert_ok` for the outcome of
`convert_crew_for_defense` (which returns `False` on its own exception).
A `points_per_crew` of `0` makes line 308 (`available // points_per_crew`)
raise `ZeroDivisionError`, caught at line 350: modelled as
`exceptionRaised`; likewise `time_per_crew = 0` inside
`calculate_max_crew_conversion`. -/
def auto_defend_pirate_attack (fortress_found : Bool)
    (fetched : Option ConversionData) (attack_arrival_seconds : Int)
    (max_capture_points : Option Nat) (safety_buffer_seconds : Nat)
    (allow_bonus_loss : Bool) (convert_ok : Bool) : DefenseResult :=
  if fortress_found = false then
    failResult attack_arrival_seconds FailReason.noFortressFound
  else
    match fetched with
    | none => failResult attack_arrival_seconds FailReason.fetchFailed
    | some conversion_data =>
      if conversion_data.conversion_in_progress then
        failResult attack_arrival_seconds FailReason.conversionAlreadyRunning
      else if conversion_data.capture_points < conversion_data.points_per_crew then
        failResult attack_arrival_seconds FailReason.insufficientResource
      else
        match calculate_max_crew_conversion attack_arrival_seconds
            safety_buffer_seconds conversion_data with
        | none => failResult attack_arrival_seconds FailReason.exceptionRaised
        | some max_crew_by_time =>
          if max_crew_by_time = 0 then
            failResult attack_arrival_seconds FailReason.attackTooClose
          else if conversion_data.points_per_crew = 0 then
            failResult attack_arrival_seconds FailReason.exceptionRaised
          else
            let crew := crew_to_convert conversion_data max_crew_by_time
                max_capture_points allow_bonus_loss
            if crew = 0 then
              failResult attack_arrival_seconds FailReason.noViableConversion
            else
              let conversion_time := conversion_data.base_time_seconds +
                  crew * conversion_data.time_per_crew
              let time_buffer : Int := attack_arrival_seconds - conversion_time
              if time_buffer < 0 then
                failResult attack_arrival_seconds FailReason.deadlineMissed
              else if convert_ok then
                { success := true
                  reason := none
                  crew_converted := crew
                  capture_points_spent := crew * conversion_data.points_per_crew
                  conversion_time := conversion_time
                  attack_arrival_time := attack_arrival_seconds
                  time_buffer := time_buffer }
              else failResult attack_arrival_seconds FailReason.executorFailed

/-- The mutable lists of one iteration of the poll loop in `do_it`
(`alertAttacks.py` lines 273-376): `knownAttacks` persists across cycles,
`currentAttacks` is reset at the top of each cycle, and `defended` records
the eventIds for which `auto_defend_on_detection` was invoked this cycle. -/
structure CycleState where
  knownAttacks : List Nat
  currentAttacks : List Nat
  defended : List Nat
  deriving DecidableEq, Repr

/-- Body of the `for` loop over hostile movements (`alertAttacks.py` lines
291-366): every hostile movement's eventId is appended to `currentAttacks`;
if it is not yet known it is appended to `knownAttacks` and alerted, and when
the pirate classifier fires, `auto_defend_on_detection` is additionally
invoked (line 348).  Non-hostile movements are filtered out by the list
comprehension (lines 291-293). -/
def processMovement (st : CycleState) (m : MilitaryMovement) : CycleState :=
  if m.isHostile then
    let st' : CycleState :=
      { st with currentAttacks := st.currentAttacks ++ [m.event.id] }
    if m.event.id ∈ st'.knownAttacks then st'
    else
      { st' with
        knownAttacks := st'.knownAttacks ++ [m.event.id]
        defended :=
          if isPirate m then st'.defended ++ [m.event.id] else st'.defended }
  else st

/-- The eviction loop (`alertAttacks.py` lines 373-376): every known eventId
absent from `currentAttacks` is removed.  `knownAttacks` never holds
duplicates, so removing the first occurrence equals filtering. -/
def evictResolved (knownAttacks currentAttacks : List Nat) : List Nat :=
  knownAttacks.filter (fun event_id => decide (event_id ∈ currentAttacks))

/-- One full poll cycle of `do_it` (`alertAttacks.py` lines 276-376).
`snapshot = none` models a cycle whose fetch/parse raised (transport failure
or malformed snapshot) before any movement was processed: the exception is
caught at line 368, `currentAttacks` stays `[]`, no movement is alerted or
defended — and the eviction loop at lines 373-376 still runs, because it sits
outside the `try`.  Returns the `knownAttacks` list after eviction and the
list of eventIds defended this cycle. -/
def runCycle (knownAttacks : List Nat)
    (snapshot : Option (List MilitaryMovement)) : List Nat × List Nat :=
  match snapshot with
  | none => (evictResolved knownAttacks [], [])
  | some militaryMovements =>
      let st := militaryMovements.foldl processMovement
        { knownAttacks := knownAttacks, currentAttacks := [], defended := [] }
      (evictResolved st.knownAttacks st.currentAttacks, st.defended)

/-- A run of successive successful poll cycles: threads `knownAttacks`
through `runCycle` and concatenates the per-cycle defense invocations. -/
def runCycles (knownAttacks : List Nat)
    (snapshots : List (List MilitaryMovement)) : List Nat × List Nat :=
  match snapshots with
  | [] => (knownAttacks, [])
  | s :: rest =>
      let c := runCycle knownAttacks (some s)
      let r := runCycles c.1 rest
      (r.1, c.2 ++ r.2)

/-- `convert_crew_for_defense` (line 337) is reached in exactly the runs of
`auto_defend_pirate_attack` whose result is a success or the executor-failure
report ("API call to convert crew failed"): every other outcome returns
before step 9. -/
def conversionSubmitted (r : DefenseResult) : Bool :=
  r.success || r.reason == some FailReason.executorFailed

/-! ### Lemmas about the planner -/

theorem crew_to_convert_le_time (cd : ConversionData) (t : Nat)
    (cap : Option Nat) (allow : Bool) : crew_to_convert cd t cap allow ≤ t := by
  unfold crew_to_convert
  cases cap <;> dsimp only <;> split_ifs <;> omega

theorem crew_to_convert_le_points (cd : ConversionData) (t : Nat)
    (cap : Option Nat) (allow : Bool) :
    crew_to_convert cd t cap allow ≤ cd.capture_points / cd.points_per_crew := by
  unfold crew_to_convert
  cases cap <;> dsimp only <;> split_ifs <;> omega

theorem crew_to_convert_le_preserve (cd : ConversionData) (t : Nat)
    (cap : Option Nat) (h7 : 7000 ≤ cd.capture_points) :
    crew_to_convert cd t cap false ≤
      (cd.capture_points - 7000) / cd.points_per_crew := by
  unfold crew_to_convert
  cases cap <;> dsimp only <;> split_ifs <;> simp_all

theorem crew_to_convert_mono (cd : ConversionData) (t₁ t₂ : Nat)
    (cap : Option Nat) (allow : Bool) (h : t₁ ≤ t₂) :
    crew_to_convert cd t₁ cap allow ≤ crew_to_convert cd t₂ cap allow := by
  unfold crew_to_convert
  cases cap <;> dsimp only <;> split_ifs <;> omega

theorem calculate_eq_of_pos (cd : ConversionData) (a : Int) (s : Nat)
    (hspc : 0 < cd.time_per_crew) :
    calculate_max_crew_conversion a s cd =
      some (if a - (s : Int) < cd.base_time_seconds then 0
            else (a - s - cd.base_time_seconds).toNat / cd.time_per_crew) := by
  have hne : cd.time_per_crew ≠ 0 := Nat.pos_iff_ne_zero.mp hspc
  unfold calculate_max_crew_conversion
  by_cases h1 : a - (s : Int) < cd.base_time_seconds <;> simp [h1, hne]

theorem calculate_eq_of_zero (cd : ConversionData) (a : Int) (s : Nat)
    (hspc : cd.time_per_crew = 0) :
    calculate_max_crew_conversion a s cd =
      (if a - (s : Int) < cd.base_time_seconds then some 0 else none) := by
  unfold calculate_max_crew_conversion
  by_cases h1 : a - (s : Int) < cd.base_time_seconds <;> simp [h1, hspc]

/-- In the branch reached with a non-zero time bound, any crew count below
that bound finishes (including the base time) at least `safety` seconds
before arrival. -/
theorem conversion_fits (cd : ConversionData) (a : Int) (s t crew : Nat)
    (hspc : 0 < cd.time_per_crew)
    (ht : calculate_max_crew_conversion a s cd = some t) (htz : t ≠ 0)
    (hcrew : crew ≤ t) :
    ((cd.base_time_seconds + crew * cd.time_per_crew : Nat) : Int) + (s : Int) ≤ a := by
  rw [calculate_eq_of_pos cd a s hspc] at ht
  have ht' := Option.some.inj ht
  by_cases hb : a - (s : Int) < cd.base_time_seconds
  · rw [if_pos hb] at ht'
    omega
  · rw [if_neg hb] at ht'
    have hmul : crew * cd.time_per_crew ≤ (a - s - cd.base_time_seconds).toNat :=
      (Nat.le_div_iff_mul_le hspc).mp (ht' ▸ hcrew)
    have hnn : (0 : Int) ≤ a - s - cd.base_time_seconds := by omega
    have hcast : ((crew * cd.time_per_crew : Nat) : Int) ≤ a - s - cd.base_time_seconds := by
      rw [← Int.toNat_of_nonneg hnn]
      exact_mod_cast hmul
    omega

theorem calculate_pos_spc (cd : ConversionData) (a : Int) (s : Nat) (t : Nat)
    (ht : calculate_max_crew_conversion a s cd = some t) (htz : t ≠ 0) :
    0 < cd.time_per_crew := by
  by_cases h : cd.time_per_crew = 0
  · rw [calculate_eq_of_zero cd a s h] at ht
    split_ifs at ht
    all_goals simp_all
  · omega

theorem calculate_zero_iff (cd : ConversionData) (a : Int) (s : Nat) (t : Nat)
    (hspc : 0 < cd.time_per_crew)
    (ht : calculate_max_crew_conversion a s cd = some t) :
    t = 0 ↔ a - (s : Int) < cd.base_time_seconds + cd.time_per_crew := by
  rw [calculate_eq_of_pos cd a s hspc] at ht
  have ht' := Option.some.inj ht
  split_ifs at ht' with hb
  · subst ht'
    constructor
    · intro _
      omega
    · intro _
      rfl
  · subst ht'
    rw [Nat.div_eq_zero_iff hspc]
    omega

theorem calculate_mono (cd : ConversionData) (a₁ a₂ : Int) (s : Nat)
    (t₁ t₂ : Nat) (hspc : 0 < cd.time_per_crew) (ha : a₁ ≤ a₂)
    (h₁ : calculate_max_crew_conversion a₁ s cd = some t₁)
    (h₂ : calculate_max_crew_conversion a₂ s cd = some t₂) : t₁ ≤ t₂ := by
  rw [calculate_eq_of_pos cd a₁ s hspc] at h₁
  rw [calculate_eq_of_pos cd a₂ s hspc] at h₂
  have e₁ := Option.some.inj h₁
  have e₂ := Option.some.inj h₂
  split_ifs at e₁ e₂ with hb₁ hb₂
  · omega
  · omega
  · omega
  · subst e₁
    subst e₂
    apply Nat.div_le_div_right
    omega

/-- Full characterization of a successful run of `auto_defend_pirate_attack`:
every gate was passed and the result fields are determined by
`crew_to_convert` applied to the time bound. -/
theorem auto_defend_success_spec (fortress_found : Bool) (cd : ConversionData)
    (a : Int) (cap : Option Nat) (s : Nat) (allow : Bool) (ok : Bool)
    (hs : (auto_defend_pirate_attack fortress_found (some cd) a cap s allow ok).success = true) :
    ∃ t, calculate_max_crew_conversion a s cd = some t ∧ t ≠ 0 ∧
      cd.points_per_crew ≠ 0 ∧
      crew_to_convert cd t cap allow ≠ 0 ∧
      auto_defend_pirate_attack fortress_found (some cd) a cap s allow ok =
        { success := true
          reason := none
          crew_converted := crew_to_convert cd t cap allow
          capture_points_spent := crew_to_convert cd t cap allow * cd.points_per_crew
          conversion_time := cd.base_time_seconds + crew_to_convert cd t cap allow * cd.time_per_crew
          attack_arrival_time := a
          time_buffer := a - ((cd.base_time_seconds + crew_to_convert cd t cap allow * cd.time_per_crew : Nat) : Int) } := by
  by_cases h1 : fortress_found = false
  · simp [auto_defend_pirate_attack, h1, failResult] at hs
  by_cases h2 : cd.conversion_in_progress
  · simp [auto_defend_pirate_attack, h1, h2, failResult] at hs
  by_cases h3 : cd.capture_points < cd.points_per_crew
  · simp [auto_defend_pirate_attack, h1, h2, h3, failResult] at hs
  cases hcalc : calculate_max_crew_conversion a s cd with
  | none => simp [auto_defend_pirate_attack, h1, h2, h3, hcalc, failResult] at hs
  | some t =>
    by_cases h4 : t = 0
    · simp [auto_defend_pirate_attack, h1, h2, h3, hcalc, h4, failResult] at hs
    by_cases h5 : cd.points_per_crew = 0
    · simp [auto_defend_pirate_attack, h1, h2, h3, hcalc, h4, h5, failResult] at hs
    by_cases h6 : crew_to_convert cd t cap allow = 0
    · simp [auto_defend_pirate_attack, h1, h2, h3, hcalc, h4, h5, h6, failResult] at hs
    by_cases h7 : a < (cd.base_time_seconds : Int) +
        (crew_to_convert cd t cap allow : Int) * (cd.time_per_crew : Int)
    · simp [auto_defend_pirate_attack, h1, h2, h3, hcalc, h4, h5, h6, h7, failResult] at hs
    by_cases h8 : ok = true
    · refine ⟨t, rfl, h4, h5, h6, ?_⟩
      simp [auto_defend_pirate_attack, h1, h2, h3, hcalc, h4, h5, h6, h7, h8]
    · simp [auto_defend_pirate_attack, h1, h2, h3, hcalc, h4, h5, h6, h7, h8, failResult] at hs

/-- A failure of any kind leaves `crew_converted` at its initial `0`: a
non-zero `crew_converted` certifies a successful run. -/
theorem auto_defend_crew_nonzero (fortress_found : Bool)
    (fetched : Option ConversionData) (a : Int) (cap : Option Nat) (s : Nat)
    (allow : Bool) (ok : Bool)
    (hz : (auto_defend_pirate_attack fortress_found fetched a cap s allow ok).crew_converted ≠ 0) :
    (auto_defend_pirate_attack fortress_found fetched a cap s allow ok).success = true := by
  by_cases h1 : fortress_found = false
  · simp [auto_defend_pirate_attack, h1, failResult] at hz
  cases fetched with
  | none => simp [auto_defend_pirate_attack, h1, failResult] at hz
  | some cd =>
    by_cases h2 : cd.conversion_in_progress
    · simp [auto_defend_pirate_attack, h1, h2, failResult] at hz
    by_cases h3 : cd.capture_points < cd.points_per_crew
    · simp [auto_defend_pirate_attack, h1, h2, h3, failResult] at hz
    cases hcalc : calculate_max_crew_conversion a s cd with
    | none => simp [auto_defend_pirate_attack, h1, h2, h3, hcalc, failResult] at hz
    | some t =>
      by_cases h4 : t = 0
      · simp [auto_defend_pirate_attack, h1, h2, h3, hcalc, h4, failResult] at hz
      by_cases h5 : cd.points_per_crew = 0
      · simp [auto_defend_pirate_attack, h1, h2, h3, hcalc, h4, h5, failResult] at hz
      by_cases h6 : crew_to_convert cd t cap allow = 0
      · simp [auto_defend_pirate_attack, h1, h2, h3, hcalc, h4, h5, h6, failResult] at hz
      by_cases h7 : a < (cd.base_time_seconds : Int) +
          (crew_to_convert cd t cap allow : Int) * (cd.time_per_crew : Int)
      · simp [auto_defend_pirate_attack, h1, h2, h3, hcalc, h4, h5, h6, h7, failResult] at hz
      by_cases h8 : ok = true
      · simp [auto_defend_pirate_attack, h1, h2, h3, hcalc, h4, h5, h6, h7, h8]
      · simp [auto_defend_pirate_attack, h1, h2, h3, hcalc, h4, h5, h6, h7, h8, failResult] at hz

/-- Bounds satisfied by every successful defense result: the buffer dominates
the safety margin, the spend is covered by the balance, and with the bonus
protection active the spend keeps the balance at or above 7000. -/
theorem auto_defend_success_bounds (fortress_found : Bool) (cd : ConversionData)
    (a : Int) (cap : Option Nat) (s : Nat) (allow : Bool) (ok : Bool)
    (hs : (auto_defend_pirate_attack fortress_found (some cd) a cap s allow ok).success = true) :
    (s : Int) ≤ (auto_defend_pirate_attack fortress_found (some cd) a cap s allow ok).time_buffer ∧
    (auto_defend_pirate_attack fortress_found (some cd) a cap s allow ok).capture_points_spent ≤
      cd.capture_points ∧
    (allow = false → 7000 ≤ cd.capture_points →
      (auto_defend_pirate_attack fortress_found (some cd) a cap s allow ok).capture_points_spent ≤
        cd.capture_points - 7000) := by
  obtain ⟨t, hcalc, ht, hppc, hcrew, hr⟩ :=
    auto_defend_success_spec fortress_found cd a cap s allow ok hs
  have hspc : 0 < cd.time_per_crew := calculate_pos_spc cd a s t hcalc ht
  have hfits := conversion_fits cd a s t (crew_to_convert cd t cap allow) hspc hcalc ht
    (crew_to_convert_le_time cd t cap allow)
  refine ⟨?_, ?_, ?_⟩
  · rw [hr]
    dsimp only
    omega
  · rw [hr]
    dsimp only
    calc crew_to_convert cd t cap allow * cd.points_per_crew
        ≤ cd.capture_points / cd.points_per_crew * cd.points_per_crew :=
          Nat.mul_le_mul_right _ (crew_to_convert_le_points cd t cap allow)
      _ ≤ cd.capture_points := Nat.div_mul_le_self _ _
  · intro hallow h7
    subst hallow
    rw [hr]
    dsimp only
    calc crew_to_convert cd t cap false * cd.points_per_crew
        ≤ (cd.capture_points - 7000) / cd.points_per_crew * cd.points_per_crew :=
          Nat.mul_le_mul_right _ (crew_to_convert_le_preserve cd t cap h7)
      _ ≤ cd.capture_points - 7000 := Nat.div_mul_le_self _ _

/-! ### Lemmas about the poll cycle -/

theorem processMovement_known_mono (st : CycleState) (m : MilitaryMovement)
    (e : Nat) (h : e ∈ st.knownAttacks) :
    e ∈ (processMovement st m).knownAttacks := by
  unfold processMovement
  by_cases hh : m.isHostile = true
  · by_cases hmem : m.event.id ∈ st.knownAttacks <;> simp [hh, hmem, h]
  · simp [hh, h]

theorem processMovement_current_mono (st : CycleState) (m : MilitaryMovement)
    (e : Nat) (h : e ∈ st.currentAttacks) :
    e ∈ (processMovement st m).currentAttacks := by
  unfold processMovement
  by_cases hh : m.isHostile = true
  · by_cases hmem : m.event.id ∈ st.knownAttacks <;> simp [hh, hmem, h]
  · simp [hh, h]

theorem processMovement_hits (st : CycleState) (m : MilitaryMovement)
    (hm : m.isHostile = true) :
    m.event.id ∈ (processMovement st m).currentAttacks ∧
      m.event.id ∈ (processMovement st m).knownAttacks := by
  unfold processMovement
  by_cases hmem : m.event.id ∈ st.knownAttacks <;> simp [hm, hmem]

theorem processMovement_defended_of_known (st : CycleState)
    (m : MilitaryMovement) (e : Nat) (h : e ∈ st.knownAttacks) :
    (processMovement st m).defended.count e = st.defended.count e := by
  unfold processMovement
  by_cases hh : m.isHostile = true
  · by_cases hmem : m.event.id ∈ st.knownAttacks
    · simp [hh, hmem]
    · have hne : e ≠ m.event.id := fun he => hmem (he ▸ h)
      by_cases hp : isPirate m <;>
        simp [hh, hmem, hp, List.count_append, List.count_eq_zero, hne]
  · simp [hh]

theorem processMovement_step (st : CycleState) (m : MilitaryMovement) (e : Nat)
    (hk : e ∉ st.knownAttacks) :
    ((processMovement st m).defended.count e = st.defended.count e ∧
        e ∉ (processMovement st m).knownAttacks) ∨
      ((processMovement st m).defended.count e ≤ st.defended.count e + 1 ∧
        e ∈ (processMovement st m).knownAttacks) := by
  unfold processMovement
  by_cases hh : m.isHostile = true
  · by_cases hmem : m.event.id ∈ st.knownAttacks
    · left
      simp [hh, hmem, hk]
    · by_cases hid : m.event.id = e
      · right
        subst hid
        constructor
        · by_cases hp : isPirate m <;>
            simp [hh, hmem, hp, List.count_append]
        · simp [hh, hmem]
      · have hid' : e ≠ m.event.id := fun he => hid he.symm
        left
        constructor
        · by_cases hp : isPirate m <;>
            simp [hh, hmem, hp, List.count_append, List.count_eq_zero, hid']
        · simp [hh, hmem, hk, hid']
  · left
    simp [hh, hk]

theorem foldl_known_mono (ms : List MilitaryMovement) (st : CycleState)
    (e : Nat) (h : e ∈ st.knownAttacks) :
    e ∈ (ms.foldl processMovement st).knownAttacks := by
  induction ms generalizing st with
  | nil => exact h
  | cons m ms ih => exact ih _ (processMovement_known_mono st m e h)

theorem foldl_current_mono (ms : List MilitaryMovement) (st : CycleState)
    (e : Nat) (h : e ∈ st.currentAttacks) :
    e ∈ (ms.foldl processMovement st).currentAttacks := by
  induction ms generalizing st with
  | nil => exact h
  | cons m ms ih => exact ih _ (processMovement_current_mono st m e h)

theorem foldl_defended_of_known (ms : List MilitaryMovement) (st : CycleState)
    (e : Nat) (h : e ∈ st.knownAttacks) :
    (ms.foldl processMovement st).defended.count e = st.defended.count e := by
  induction ms generalizing st with
  | nil => rfl
  | cons m ms ih =>
      rw [List.foldl_cons, ih _ (processMovement_known_mono st m e h),
        processMovement_defended_of_known st m e h]

theorem foldl_defended_le (ms : List MilitaryMovement) (st : CycleState)
    (e : Nat) :
    (ms.foldl processMovement st).defended.count e ≤
      st.defended.count e + (if e ∈ st.knownAttacks then 0 else 1) := by
  induction ms generalizing st with
  | nil =>
      rw [List.foldl_nil]
      split_ifs <;> omega
  | cons m ms ih =>
      rw [List.foldl_cons]
      by_cases hk : e ∈ st.knownAttacks
      · rw [foldl_defended_of_known _ _ _ (processMovement_known_mono st m e hk),
          processMovement_defended_of_known st m e hk]
        omega
      · rcases processMovement_step st m e hk with ⟨hc, hnk⟩ | ⟨hc, hik⟩
        · have := ih (processMovement st m)
          simp only [if_neg hnk] at this
          simp only [if_neg hk]
          omega
        · rw [foldl_defended_of_known _ _ _ hik]
          simp only [if_neg hk]
          omega

theorem foldl_present (ms : List MilitaryMovement) (st : CycleState) (e : Nat)
    (h : ∃ m ∈ ms, m.isHostile = true ∧ m.event.id = e) :
    e ∈ (ms.foldl processMovement st).currentAttacks ∧
      e ∈ (ms.foldl processMovement st).knownAttacks := by
  induction ms generalizing st with
  | nil => simp at h
  | cons m ms ih =>
      rcases h with ⟨m', hm', hh, hid⟩
      rcases List.mem_cons.mp hm' with rfl | hmem
      · rw [List.foldl_cons]
        have hit := processMovement_hits st m' hh
        rw [hid] at hit
        exact ⟨foldl_current_mono _ _ _ hit.1, foldl_known_mono _ _ _ hit.2⟩
      · exact ih _ ⟨m', hmem, hh, hid⟩

theorem runCycle_known_of_present (known : List Nat)
    (s : List MilitaryMovement) (e : Nat)
    (h : ∃ m ∈ s, m.isHostile = true ∧ m.event.id = e) :
    e ∈ (runCycle known (some s)).1 := by
  unfold runCycle evictResolved
  have hp := foldl_present s { knownAttacks := known, currentAttacks := [], defended := [] } e h
  simp only [List.mem_filter, decide_eq_true_iff]
  exact ⟨hp.2, hp.1⟩

theorem runCycle_defended_of_known (known : List Nat)
    (s : List MilitaryMovement) (e : Nat) (hk : e ∈ known) :
    (runCycle known (some s)).2.count e = 0 := by
  unfold runCycle
  exact foldl_defended_of_known s
    { knownAttacks := known, currentAttacks := [], defended := [] } e hk

theorem runCycle_defended_le (known : List Nat) (s : List MilitaryMovement)
    (e : Nat) :
    (runCycle known (some s)).2.count e ≤ if e ∈ known then 0 else 1 := by
  unfold runCycle
  have := foldl_defended_le s
    { knownAttacks := known, currentAttacks := [], defended := [] } e
  simpa using this

theorem runCycles_defended_of_known (snaps : List (List MilitaryMovement))
    (known : List Nat) (e : Nat) (hk : e ∈ known)
    (h : ∀ s ∈ snaps, ∃ m ∈ s, m.isHostile = true ∧ m.event.id = e) :
    (runCycles known snaps).2.count e = 0 := by
  induction snaps generalizing known with
  | nil => rfl
  | cons s rest ih =>
      unfold runCycles
      dsimp only
      rw [List.count_append]
      rw [runCycle_defended_of_known known s e hk]
      rw [ih _ (runCycle_known_of_present known s e (h s (List.mem_cons_self s rest)))
        (fun s' hs' => h s' (List.mem_cons_of_mem s hs'))]

/-! ### Claims -/

/-- Claim C1: the claim states that an error cycle (fetch or parse raised)
leaves the `KnownAttacksSet` unchanged.  The code violates it: the eviction
loop of `do_it` (lines 373-376) sits outside the `try`, so a cycle whose
fetch raised still evicts every known attack against the empty
`currentAttacks` list.  This theorem evaluates the cycle at the failing
input: one known attack, a failed fetch — the known-attacks list comes out
empty instead of unchanged. -/
theorem claim_C1 : runCycle [7] none = ([], []) ∧ (runCycle [7] none).1 ≠ [7] := by
  decide

/-- Claim C2: a movement is classified as a pirate raid iff its event type is
the literal "piracy" and its mission icon is the literal "piracyRaid"; a
hostile movement failing either conjunct is classified as a player attack;
the classification is a deterministic function of the two fields (and the
hostility flag), and the "piracy"/"normalRaid" example classifies as a
player attack. -/
theorem claim_C2 :
    (∀ m : MilitaryMovement,
      classifyMovement m = Classification.pirateRaid ↔
        m.event.type = some "piracy" ∧ m.event.missionIconClass = some "piracyRaid") ∧
    (∀ m : MilitaryMovement, m.isHostile = true →
      classifyMovement m ≠ Classification.pirateRaid →
      classifyMovement m = Classification.playerAttack) ∧
    (∀ m₁ m₂ : MilitaryMovement, m₁.event.type = m₂.event.type →
      m₁.event.missionIconClass = m₂.event.missionIconClass →
      m₁.isHostile = m₂.isHostile →
      classifyMovement m₁ = classifyMovement m₂) ∧
    classifyMovement
      { event := { id := 0, type := some "piracy", missionIconClass := some "normalRaid" }
        isHostile := true, isOwnArmyOrFleet := false } = Classification.playerAttack := by
  refine ⟨?_, ?_, ?_, by decide⟩
  · intro m
    unfold classifyMovement
    by_cases hp : isPirate m = true
    · rw [if_pos hp]
      simp only [isPirate, Bool.and_eq_true, beq_iff_eq] at hp
      simp [hp]
    · rw [if_neg hp]
      simp only [isPirate, Bool.and_eq_true, beq_iff_eq] at hp
      constructor
      · intro hc
        split_ifs at hc
      · intro hc
        exact absurd hc hp
  · intro m hh hne
    unfold classifyMovement at hne ⊢
    split_ifs
    all_goals simp_all
  · intro m₁ m₂ h1 h2 h3
    simp only [classifyMovement, isPirate, h1, h2, h3]

theorem claim_C2_witness :
    classifyMovement
      { event := { id := 1, type := some "piracy", missionIconClass := some "piracyRaid" }
        isHostile := true, isOwnArmyOrFleet := false } = Classification.pirateRaid ∧
    classifyMovement
      { event := { id := 2, type := some "piracy", missionIconClass := some "normalRaid" }
        isHostile := true, isOwnArmyOrFleet := false } = Classification.playerAttack :=
  ⟨(claim_C2.1 _).mpr ⟨rfl, rfl⟩, claim_C2.2.1 _ rfl (by decide)⟩

/-- Claim C3 (counterexample to the claim as stated): spec scenario A itself —
5000 available points, preservation not overridden — yields an accepted plan
spending 170 points, after which the balance 4830 is below the 7000-point
preservation threshold: the preservation conjunct does not hold "regardless
of the starting balance". -/
theorem claim_C3_counterexample :
    (auto_defend_pirate_attack true (some ⟨5000, 156, 7, 10, false⟩) 400 none 120 false
        true).success = true ∧
    (auto_defend_pirate_attack true (some ⟨5000, 156, 7, 10, false⟩) 400 none 120 false
        true).capture_points_spent = 170 ∧
    ¬(7000 ≤ 5000 - (auto_defend_pirate_attack true (some ⟨5000, 156, 7, 10, false⟩) 400
        none 120 false true).capture_points_spent) := by
  decide

/-- Claim C3 (amended): for every accepted plan, `timeBufferSeconds ≥ 0` and
`pointsToSpend ≤ availablePoints`; and — absent the override — whenever the
starting balance is at least the 7000-point preservation threshold, the
post-conversion balance stays at or above it.  (The code applies the
preservation cap only when `availablePoints ≥ 7000`.) -/
theorem claim_C3 : ∀ (fortress_found : Bool) (cd : ConversionData) (a : Int)
    (cap : Option Nat) (s : Nat) (allow ok : Bool),
    (auto_defend_pirate_attack fortress_found (some cd) a cap s allow ok).success = true →
    0 ≤ (auto_defend_pirate_attack fortress_found (some cd) a cap s allow ok).time_buffer ∧
    (auto_defend_pirate_attack fortress_found (some cd) a cap s allow ok).capture_points_spent ≤
      cd.capture_points ∧
    (allow = false → 7000 ≤ cd.capture_points →
      7000 ≤ cd.capture_points -
        (auto_defend_pirate_attack fortress_found (some cd) a cap s allow ok).capture_points_spent) := by
  intro f cd a cap s allow ok hs
  obtain ⟨hbuf, hspend, hpres⟩ := auto_defend_success_bounds f cd a cap s allow ok hs
  refine ⟨by omega, hspend, ?_⟩
  intro hallow h7
  have := hpres hallow h7
  omega

theorem claim_C3_witness :
    (auto_defend_pirate_attack true (some ⟨12000, 156, 7, 10, false⟩) 400 none 120 false
        true).success = true ∧
    (0 ≤ (auto_defend_pirate_attack true (some ⟨12000, 156, 7, 10, false⟩) 400 none 120
        false true).time_buffer ∧
      (auto_defend_pirate_attack true (some ⟨12000, 156, 7, 10, false⟩) 400 none 120 false
          true).capture_points_spent ≤ 12000 ∧
      (false = false → 7000 ≤ 12000 →
        7000 ≤ 12000 - (auto_defend_pirate_attack true (some ⟨12000, 156, 7, 10, false⟩)
          400 none 120 false true).capture_points_spent)) :=
  ⟨by decide, claim_C3 true ⟨12000, 156, 7, 10, false⟩ 400 none 120 false true (by decide)⟩

/-- Claim C4 (counterexample to the claim as stated): with base time 156,
7 s per unit and safety buffer 120, an arrival of 279 s gives
`availableTime = 159 ≥ 156 = baseConversionSeconds`, yet the planner fails
with the InsufficientTime reason ("Attack too close"), because
`max_crew_by_time = floor(3/7) = 0` triggers that branch — refuting the
claimed "if and only if availableTime < baseConversionSeconds". -/
theorem claim_C4_counterexample :
    (auto_defend_pirate_attack true (some ⟨5000, 156, 7, 10, false⟩) 279 none 120 false
        true).reason = some FailReason.attackTooClose ∧
    ¬((279 : Int) - 120 < 156) := by
  decide

/-- Claim C4 (amended): under the same preconditions, the planner fails with
the InsufficientTime reason iff `maxUnitsByTime = 0`, i.e. iff
`availableTime < baseConversionSeconds + secondsPerUnit` (not iff
`availableTime < baseConversionSeconds`); and whenever `maxUnitsByTime ≥ 1`,
the failure reason is NoViableConversion exactly when the combined unit
bound is zero. -/
theorem claim_C4 : ∀ (cd : ConversionData) (a : Int) (cap : Option Nat)
    (s : Nat) (allow ok : Bool),
    cd.conversion_in_progress = false →
    cd.points_per_crew ≤ cd.capture_points →
    0 < cd.time_per_crew → 0 < cd.points_per_crew →
    ((auto_defend_pirate_attack true (some cd) a cap s allow ok).reason =
        some FailReason.attackTooClose ↔
      a - (s : Int) < (cd.base_time_seconds : Int) + (cd.time_per_crew : Int)) ∧
    (∀ t, calculate_max_crew_conversion a s cd = some t → t ≠ 0 →
      ((auto_defend_pirate_attack true (some cd) a cap s allow ok).reason =
          some FailReason.noViableConversion ↔
        crew_to_convert cd t cap allow = 0)) := by
  intro cd a cap s allow ok hprog hpts hspc hppc
  have h2 : ¬(cd.conversion_in_progress = true) := by simp [hprog]
  have h3 : ¬(cd.capture_points < cd.points_per_crew) := by omega
  have h5 : ¬(cd.points_per_crew = 0) := by omega
  obtain ⟨t0, hcalc⟩ : ∃ t0, calculate_max_crew_conversion a s cd = some t0 :=
    ⟨_, calculate_eq_of_pos cd a s hspc⟩
  constructor
  · by_cases h4 : t0 = 0
    · have hr : (auto_defend_pirate_attack true (some cd) a cap s allow ok).reason =
          some FailReason.attackTooClose := by
        simp [auto_defend_pirate_attack, h2, h3, hcalc, h4, failResult]
      rw [hr]
      simp only [true_iff, iff_true]
      exact (calculate_zero_iff cd a s t0 hspc hcalc).mp h4
    · have hrhs : ¬(a - (s : Int) < (cd.base_time_seconds : Int) + (cd.time_per_crew : Int)) :=
        fun hlt => h4 ((calculate_zero_iff cd a s t0 hspc hcalc).mpr hlt)
      by_cases h6 : crew_to_convert cd t0 cap allow = 0
      · have hr : (auto_defend_pirate_attack true (some cd) a cap s allow ok).reason =
            some FailReason.noViableConversion := by
          simp [auto_defend_pirate_attack, h2, h3, hcalc, h4, h5, h6, failResult]
        rw [hr]
        simp [hrhs]
      · by_cases h7 : a < (cd.base_time_seconds : Int) +
            (crew_to_convert cd t0 cap allow : Int) * (cd.time_per_crew : Int)
        · have hr : (auto_defend_pirate_attack true (some cd) a cap s allow ok).reason =
              some FailReason.deadlineMissed := by
            simp [auto_defend_pirate_attack, h2, h3, hcalc, h4, h5, h6, h7, failResult]
          rw [hr]
          simp [hrhs]
        · by_cases h8 : ok = true
          · have hr : (auto_defend_pirate_attack true (some cd) a cap s allow ok).reason =
                none := by
              simp [auto_defend_pirate_attack, h2, h3, hcalc, h4, h5, h6, h7, h8, failResult]
            rw [hr]
            simp [hrhs]
          · have hr : (auto_defend_pirate_attack true (some cd) a cap s allow ok).reason =
                some FailReason.executorFailed := by
              simp [auto_defend_pirate_attack, h2, h3, hcalc, h4, h5, h6, h7, h8, failResult]
            rw [hr]
            simp [hrhs]
  · intro t ht htz
    have htt : t0 = t := Option.some.inj (hcalc ▸ ht)
    subst htt
    by_cases h6 : crew_to_convert cd t0 cap allow = 0
    · have hr : (auto_defend_pirate_attack true (some cd) a cap s allow ok).reason =
          some FailReason.noViableConversion := by
        simp [auto_defend_pirate_attack, h2, h3, hcalc, htz, h5, h6, failResult]
      rw [hr]
      simp [h6]
    · by_cases h7 : a < (cd.base_time_seconds : Int) +
          (crew_to_convert cd t0 cap allow : Int) * (cd.time_per_crew : Int)
      · have hr : (auto_defend_pirate_attack true (some cd) a cap s allow ok).reason =
            some FailReason.deadlineMissed := by
          simp [auto_defend_pirate_attack, h2, h3, hcalc, htz, h5, h6, h7, failResult]
        rw [hr]
        simp [h6]
      · by_cases h8 : ok = true
        · have hr : (auto_defend_pirate_attack true (some cd) a cap s allow ok).reason =
              none := by
            simp [auto_defend_pirate_attack, h2, h3, hcalc, htz, h5, h6, h7, h8, failResult]
          rw [hr]
          simp [h6]
        · have hr : (auto_defend_pirate_attack true (some cd) a cap s allow ok).reason =
              some FailReason.executorFailed := by
            simp [auto_defend_pirate_attack, h2, h3, hcalc, htz, h5, h6, h7, h8, failResult]
          rw [hr]
          simp [h6]

theorem claim_C4_witness :
    (auto_defend_pirate_attack true (some ⟨5000, 156, 7, 10, false⟩) 250 none 120 false
        true).reason = some FailReason.attackTooClose ↔
      (250 : Int) - 120 < (156 : Int) + 7 :=
  (claim_C4 ⟨5000, 156, 7, 10, false⟩ 250 none 120 false true (by decide) (by decide)
    (by decide) (by decide)).1

/-- Claim C5: spec scenario A — 5000 points, 10 points and 7 s per unit,
156 s base time, arrival 400 s, buffer 120 s, no cap, no conversion running —
produces an accepted plan of exactly 17 units, 170 points,
275 s conversion and a 125 s buffer. -/
theorem claim_C5 :
    auto_defend_pirate_attack true
      (some { capture_points := 5000, base_time_seconds := 156, time_per_crew := 7,
              points_per_crew := 10, conversion_in_progress := false })
      400 none 120 false true =
    { success := true, reason := none, crew_converted := 17,
      capture_points_spent := 170, conversion_time := 275,
      attack_arrival_time := 400, time_buffer := 125 } := by
  decide

/-- Claim C6: whenever the fetched fortress state reports a conversion in
progress, the planner fails with the ConversionAlreadyRunning reason for
every combination of the remaining inputs, and no conversion request is
submitted. -/
theorem claim_C6 : ∀ (cd : ConversionData) (a : Int) (cap : Option Nat)
    (s : Nat) (allow ok : Bool),
    cd.conversion_in_progress = true →
    auto_defend_pirate_attack true (some cd) a cap s allow ok =
      failResult a FailReason.conversionAlreadyRunning ∧
    conversionSubmitted (auto_defend_pirate_attack true (some cd) a cap s allow ok) = false := by
  intro cd a cap s allow ok h
  have hr : auto_defend_pirate_attack true (some cd) a cap s allow ok =
      failResult a FailReason.conversionAlreadyRunning := by
    simp [auto_defend_pirate_attack, h, failResult]
  exact ⟨hr, by rw [hr]; simp [conversionSubmitted, failResult]⟩

theorem claim_C6_witness :
    auto_defend_pirate_attack true (some ⟨5000, 156, 7, 10, true⟩) 400 none 120 false true =
      failResult 400 FailReason.conversionAlreadyRunning ∧
    conversionSubmitted
      (auto_defend_pirate_attack true (some ⟨5000, 156, 7, 10, true⟩) 400 none 120 false true) =
      false :=
  claim_C6 ⟨5000, 156, 7, 10, true⟩ 400 none 120 false true rfl

/-- Claim C7: with the fortress state, cap, safety buffer, preservation
setting (and executor outcome) fixed, the number of units the defense
converts is monotonically non-decreasing in the seconds remaining until
arrival. -/
theorem claim_C7 : ∀ (fortress_found : Bool) (fetched : Option ConversionData)
    (cap : Option Nat) (s : Nat) (allow ok : Bool) (a₁ a₂ : Int), a₁ ≤ a₂ →
    (auto_defend_pirate_attack fortress_found fetched a₁ cap s allow ok).crew_converted ≤
      (auto_defend_pirate_attack fortress_found fetched a₂ cap s allow ok).crew_converted := by
  intro f fd cap s allow ok a₁ a₂ ha
  by_cases hf : f = false
  · subst hf
    simp [auto_defend_pirate_attack, failResult]
  cases fd with
  | none => simp [auto_defend_pirate_attack, hf, failResult]
  | some cd =>
    by_cases hz : (auto_defend_pirate_attack f (some cd) a₁ cap s allow ok).crew_converted = 0
    · rw [hz]
      exact Nat.zero_le _
    · have hs := auto_defend_crew_nonzero f (some cd) a₁ cap s allow ok hz
      obtain ⟨t₁, hcalc₁, ht₁, hppc, hcrew₁, hr₁⟩ :=
        auto_defend_success_spec f cd a₁ cap s allow ok hs
      have hspc : 0 < cd.time_per_crew := calculate_pos_spc cd a₁ s t₁ hcalc₁ ht₁
      have hprog : ¬(cd.conversion_in_progress = true) := by
        intro hp
        simp [auto_defend_pirate_attack, hf, hp, failResult] at hs
      have hpts : ¬(cd.capture_points < cd.points_per_crew) := by
        intro hp
        simp [auto_defend_pirate_attack, hf, hprog, hp, failResult] at hs
      have hok : ok = true := by
        by_contra hok
        simp [auto_defend_pirate_attack, hf, hprog, hpts, hcalc₁, ht₁, hppc, hcrew₁, hok,
          failResult, apply_ite] at hs
      obtain ⟨t₂, hcalc₂⟩ : ∃ t₂, calculate_max_crew_conversion a₂ s cd = some t₂ :=
        ⟨_, calculate_eq_of_pos cd a₂ s hspc⟩
      have htle : t₁ ≤ t₂ := calculate_mono cd a₁ a₂ s t₁ t₂ hspc ha hcalc₁ hcalc₂
      have ht₂ : t₂ ≠ 0 := fun h0 => ht₁ (Nat.le_zero.mp (h0 ▸ htle))
      have hcrewle : crew_to_convert cd t₁ cap allow ≤ crew_to_convert cd t₂ cap allow :=
        crew_to_convert_mono cd t₁ t₂ cap allow htle
      have hcrew₂ : crew_to_convert cd t₂ cap allow ≠ 0 :=
        fun h0 => hcrew₁ (Nat.le_zero.mp (h0 ▸ hcrewle))
      have hfit₂ := conversion_fits cd a₂ s t₂ (crew_to_convert cd t₂ cap allow) hspc hcalc₂
        ht₂ (crew_to_convert_le_time cd t₂ cap allow)
      have h7₂ : ¬(a₂ < (cd.base_time_seconds : Int) +
          (crew_to_convert cd t₂ cap allow : Int) * (cd.time_per_crew : Int)) := by
        push_cast at hfit₂
        omega
      have hr₂ : (auto_defend_pirate_attack f (some cd) a₂ cap s allow ok).crew_converted =
          crew_to_convert cd t₂ cap allow := by
        simp [auto_defend_pirate_attack, hf, hprog, hpts, hcalc₂, ht₂, hppc, hcrew₂, h7₂, hok]
      rw [hr₁, hr₂]
      exact hcrewle

theorem claim_C7_witness :
    (auto_defend_pirate_attack true (some ⟨5000, 156, 7, 10, false⟩) 300 none 120 false
        true).crew_converted ≤
      (auto_defend_pirate_attack true (some ⟨5000, 156, 7, 10, false⟩) 400 none 120 false
        true).crew_converted :=
  claim_C7 true (some ⟨5000, 156, 7, 10, false⟩) none 120 false true 300 400 (by decide)

/-- Claim C8: for every eventId present as a hostile movement in each
snapshot of a run of successive successful cycles, at most one defense
invocation is ever made for it: the id is appended to `knownAttacks` before
the defense runs, and while it stays present it is never evicted, so later
cycles skip it — a failed defense is not retried. -/
theorem claim_C8 : ∀ (snapshots : List (List MilitaryMovement))
    (known : List Nat) (e : Nat),
    (∀ s ∈ snapshots, ∃ m ∈ s, m.isHostile = true ∧ m.event.id = e) →
    (runCycles known snapshots).2.count e ≤ 1 := by
  intro snaps known e h
  cases snaps with
  | nil => simp [runCycles]
  | cons s rest =>
      unfold runCycles
      dsimp only
      rw [List.count_append]
      have hpres := h s (List.mem_cons_self s rest)
      rw [runCycles_defended_of_known rest _ e
        (runCycle_known_of_present known s e hpres)
        (fun s' hs' => h s' (List.mem_cons_of_mem s hs'))]
      have hle := runCycle_defended_le known s e
      split_ifs at hle <;> omega

theorem claim_C8_witness :
    (runCycles []
      [[{ event := { id := 5, type := some "piracy", missionIconClass := some "piracyRaid" }
          isHostile := true, isOwnArmyOrFleet := false }],
       [{ event := { id := 5, type := some "piracy", missionIconClass := some "piracyRaid" }
          isHostile := true, isOwnArmyOrFleet := false }]]).2.count 5 ≤ 1 :=
  claim_C8
    [[{ event := { id := 5, type := some "piracy", missionIconClass := some "piracyRaid" }
        isHostile := true, isOwnArmyOrFleet := false }],
     [{ event := { id := 5, type := some "piracy", missionIconClass := some "piracyRaid" }
        isHostile := true, isOwnArmyOrFleet := false }]] [] 5 (by decide)

/-- Claim C9: every successful defense result reports a time buffer of at
least the safety buffer (not merely non-negative), because the time bound
already reserves the safety buffer before arrival. -/
theorem claim_C9 : ∀ (fortress_found : Bool) (cd : ConversionData) (a : Int)
    (cap : Option Nat) (s : Nat) (allow ok : Bool),
    (auto_defend_pirate_attack fortress_found (some cd) a cap s allow ok).success = true →
    (s : Int) ≤ (auto_defend_pirate_attack fortress_found (some cd) a cap s allow ok).time_buffer :=
  fun f cd a cap s allow ok hs => (auto_defend_success_bounds f cd a cap s allow ok hs).1

theorem claim_C9_witness :
    (120 : Int) ≤ (auto_defend_pirate_attack true (some ⟨5000, 156, 7, 10, false⟩) 400 none
      120 false true).time_buffer :=
  claim_C9 true ⟨5000, 156, 7, 10, false⟩ 400 none 120 false true (by decide)

/-- Claim C10: the automatic poll loop selects movements using only
`isHostile` and known-set membership — `processMovement` is invariant under
the `isOwnArmyOrFleet` flag, and a hostile own-force pirate movement is both
alerted and auto-defended by a cycle — whereas the manual scanner requires
`isOwnArmyOrFleet` to be false and rejects that same movement. -/
theorem claim_C10 :
    (∀ (st : CycleState) (m : MilitaryMovement) (b : Bool),
      processMovement st
        { event := m.event, isHostile := m.isHostile, isOwnArmyOrFleet := b } =
        processMovement st m) ∧
    runCycle []
      (some [{ event := { id := 5, type := some "piracy", missionIconClass := some "piracyRaid" }
               isHostile := true, isOwnArmyOrFleet := true }]) = ([5], [5]) ∧
    manual_scanner_selects
      { event := { id := 5, type := some "piracy", missionIconClass := some "piracyRaid" }
        isHostile := true, isOwnArmyOrFleet := true } = false := by
  refine ⟨?_, by decide, by decide⟩
  intro st m b
  rfl

end Ikabot
